import Mathlib

/- Shallow embedding of the doclink-streamlit backend core: the relational
store rows manipulated by app/db/database.py, the per-user Redis working-set
cache, and the cache-affecting endpoint logic of app/api/endpoints.py.
Machine state is explicit: every store-touching operation takes the database
and cache values and returns the updated ones together with its result. -/

/-- A row of the user_info table (only the columns the core logic reads). -/
structure UserRow where
  user_id : String
  user_type : String
deriving DecidableEq, Repr

/-- A row of the domain_info table. -/
structure DomainRow where
  user_id : String
  domain_id : String
  domain_name : String
  domain_type : Nat
deriving DecidableEq, Repr

/-- A row of the file_info table. -/
structure FileInfoRow where
  user_id : String
  file_id : String
  domain_id : String
  file_name : String
  file_modified_date : String
  file_upload_date : Option String
deriving DecidableEq, Repr

/-- A row of the file_content table; the embedding blob is an opaque scalar. -/
structure ContentRow where
  file_id : String
  sentence : String
  page_number : Nat
  is_header : Bool
  is_table : Bool
  embedding : Nat
deriving DecidableEq, Repr

/-- A row of the session_info table; timestamps are integer seconds. -/
structure SessionRow where
  user_id : String
  session_id : String
  question_count : Nat
  total_enterance : Nat
  created_at : Int
  last_enterance : Int
deriving DecidableEq, Repr

/-- The relational store. -/
structure Db where
  user_info : List UserRow
  domain_info : List DomainRow
  file_info : List FileInfoRow
  file_content : List ContentRow
  session_info : List SessionRow
deriving DecidableEq, Repr

/-- One row of the result of the content query of Database.get_file_content:
file_content joined on file_info for the file name. -/
structure ContentOut where
  sentence : String
  is_header : Bool
  is_table : Bool
  page_number : Nat
  file_id : String
  file_name : Option String
deriving DecidableEq, Repr

/-- The staged upload payload that store_file, store_drive_file and store_url
place in the cache under key user:ID:upload:NAME. -/
structure UploadData where
  file_name : String
  last_modified : String
  sentences : List String
  page_numbers : List Nat
  is_headers : List Bool
  is_tables : List Bool
  embeddings : List Nat
deriving DecidableEq, Repr

/-- Values stored in the Redis cache. -/
inductive CacheVal where
  | str (s : String)
  | contentRows (rows : List ContentOut)
  | embMatrix (rows : List Nat)
  | staged (u : UploadData)
deriving DecidableEq, Repr

/-- The Redis cache, as an association list of key-value pairs. -/
abbrev Cache := List (String × CacheVal)

def cacheGet : Cache → String → Option CacheVal
  | [], _ => none
  | (k2, v) :: rest, k => if k2 == k then some v else cacheGet rest k

def cacheErase : Cache → String → Cache
  | [], _ => []
  | (k2, v) :: rest, k =>
    if k2 == k then cacheErase rest k else (k2, v) :: cacheErase rest k

/-- Redis SET: overwrite any existing entry for the key. -/
def cacheSet (c : Cache) (k : String) (v : CacheVal) : Cache :=
  (k, v) :: cacheErase c k

theorem cacheGet_erase_self (c : Cache) (k : String) :
    cacheGet (cacheErase c k) k = none := by
  induction c with
  | nil => rfl
  | cons p rest ih =>
    obtain ⟨k2, v⟩ := p
    by_cases h : k2 = k
    · simpa [cacheErase, h] using ih
    · simpa [cacheErase, cacheGet, h] using ih

theorem cacheGet_erase_ne (c : Cache) {k k2 : String} (h : k ≠ k2) :
    cacheGet (cacheErase c k2) k = cacheGet c k := by
  induction c with
  | nil => rfl
  | cons p rest ih =>
    obtain ⟨k3, v⟩ := p
    by_cases h3 : k3 = k2
    · simp [cacheErase, cacheGet, h3, Ne.symm h, ih]
    · by_cases hk : k3 = k
      · subst hk; simp [cacheErase, cacheGet, h3]
      · simp [cacheErase, cacheGet, h3, hk, ih]

theorem cacheGet_set_self (c : Cache) (k : String) (v : CacheVal) :
    cacheGet (cacheSet c k v) k = some v := by
  simp [cacheSet, cacheGet]

theorem cacheGet_set_ne (c : Cache) (v : CacheVal) {k k2 : String} (h : k ≠ k2) :
    cacheGet (cacheSet c k2 v) k = cacheGet c k := by
  have h2 : (k2 == k) = false := by
    simp [beq_iff_eq]
    intro he; exact h he.symm
  simp [cacheSet, cacheGet, h2, cacheGet_erase_ne c h]

theorem cacheGet_none_erase (c : Cache) (k k2 : String)
    (h : cacheGet c k = none) : cacheGet (cacheErase c k2) k = none := by
  by_cases hk : k = k2
  · subst hk; exact cacheGet_erase_self c k
  · rw [cacheGet_erase_ne c hk]; exact h

theorem cacheGet_mem {c : Cache} {k : String} {v : CacheVal}
    (h : cacheGet c k = some v) : (k, v) ∈ c := by
  induction c with
  | nil => simp [cacheGet] at h
  | cons p rest ih =>
    obtain ⟨k2, v2⟩ := p
    by_cases hk : k2 = k
    · subst hk
      simp [cacheGet] at h
      subst h
      exact List.mem_cons_self _ _
    · have hb : (k2 == k) = false := by simp [beq_iff_eq, hk]
      simp [cacheGet, hb] at h
      exact List.mem_cons_of_mem _ (ih h)

/- Cache keys used by app/api/endpoints.py. -/

def selKey (u : String) : String := "user:" ++ u ++ ":selected_domain"

def contentKey (u : String) : String := "user:" ++ u ++ ":domain_content"

def embKey (u : String) : String := "user:" ++ u ++ ":domain_embeddings"

def indexKey (u : String) : String := "user:" ++ u ++ ":index"

def indexHeaderKey (u : String) : String := "user:" ++ u ++ ":index_header"

def boostKey (u : String) : String := "user:" ++ u ++ ":boost_info"

def uploadKeyBase (u : String) : String := "user:" ++ u ++ ":upload:"

theorem userKey_ne (u : String) {a b : String} (h : a.length ≠ b.length) :
    ("user:" ++ u ++ a) ≠ ("user:" ++ u ++ b) := by
  intro he
  apply h
  have hl := congrArg String.length he
  simp [String.length_append] at hl
  omega

theorem selKey_ne_contentKey (u : String) : selKey u ≠ contentKey u :=
  userKey_ne u (by decide)

theorem selKey_ne_embKey (u : String) : selKey u ≠ embKey u :=
  userKey_ne u (by decide)

theorem selKey_ne_indexKey (u : String) : selKey u ≠ indexKey u :=
  userKey_ne u (by decide)

theorem selKey_ne_indexHeaderKey (u : String) : selKey u ≠ indexHeaderKey u :=
  userKey_ne u (by decide)

theorem selKey_ne_boostKey (u : String) : selKey u ≠ boostKey u :=
  userKey_ne u (by decide)

theorem embKey_ne_contentKey (u : String) : embKey u ≠ contentKey u :=
  userKey_ne u (by decide)

theorem embKey_ne_indexKey (u : String) : embKey u ≠ indexKey u :=
  userKey_ne u (by decide)

theorem embKey_ne_indexHeaderKey (u : String) : embKey u ≠ indexHeaderKey u :=
  userKey_ne u (by decide)

theorem embKey_ne_boostKey (u : String) : embKey u ≠ boostKey u :=
  userKey_ne u (by decide)

theorem contentKey_ne_indexKey (u : String) : contentKey u ≠ indexKey u :=
  userKey_ne u (by decide)

theorem contentKey_ne_indexHeaderKey (u : String) : contentKey u ≠ indexHeaderKey u :=
  userKey_ne u (by decide)

theorem contentKey_ne_boostKey (u : String) : contentKey u ≠ boostKey u :=
  userKey_ne u (by decide)

theorem indexKey_ne_indexHeaderKey (u : String) : indexKey u ≠ indexHeaderKey u :=
  userKey_ne u (by decide)

theorem indexKey_ne_boostKey (u : String) : indexKey u ≠ boostKey u :=
  userKey_ne u (by decide)

theorem indexHeaderKey_ne_boostKey (u : String) : indexHeaderKey u ≠ boostKey u :=
  userKey_ne u (by decide)

/- Database read operations (app/db/database.py). -/

/-- Database.get_file_info_with_domain: the file_info rows of one user and
domain; the method returns None when the result set is empty. -/
def get_file_info_with_domain (db : Db) (user_id domain_id : String) :
    Option (List FileInfoRow) :=
  let rows := db.file_info.filter
    (fun f => f.user_id == user_id && f.domain_id == domain_id)
  if rows.isEmpty then none else some rows

/-- Database.get_file_content: content rows (joined with file_info for the
file name) and the row-aligned embedding column for the given file ids.
An empty id list makes the SQL IN clause fail, and an empty result set takes
the miss branch; both return None in the source, modelled as none here. -/
def get_file_content (db : Db) (file_ids : List String) :
    Option (List ContentOut × List Nat) :=
  if file_ids.isEmpty then none
  else
    let rows := db.file_content.filter (fun r => file_ids.contains r.file_id)
    if rows.isEmpty then none
    else
      some (rows.map (fun r =>
        ⟨r.sentence, r.is_header, r.is_table, r.page_number, r.file_id,
          (db.file_info.find? (fun f => f.file_id == r.file_id)).map
            (fun f => f.file_name)⟩),
        rows.map (fun r => r.embedding))

/-- Database.get_domain_info: the domain name of one (user, domain) pair. -/
def get_domain_info (db : Db) (user_id domain_id : String) : Option String :=
  (db.domain_info.find?
    (fun x => x.user_id == user_id && x.domain_id == domain_id)).map
    (fun x => x.domain_name)

/-- Result of update_selected_domain in endpoints.py: the triple the helper
returns together with the cache it leaves behind. -/
structure UpdResult where
  file_names : Option (List String)
  file_ids : Option (List String)
  success : Nat
  cache : Cache
deriving DecidableEq, Repr

/-- endpoints.update_selected_domain: write the selected-domain pointer,
read the domain membership, then either clear the cached working set (empty
domain or failed content read) or publish the freshly read content and
embeddings. The deletions on the clearing paths are exactly the four keys
the source deletes: domain_content, index, index_header and boost_info. -/
def clearDomainData (c : Cache) (u : String) : Cache :=
  cacheErase (cacheErase (cacheErase (cacheErase c
    (contentKey u)) (indexKey u)) (indexHeaderKey u)) (boostKey u)

/-- endpoints.update_selected_domain, the single republish helper every
domain-mutating endpoint calls. -/
def update_selected_domain (db : Db) (cache : Cache) (user_id domain_id : String) :
    UpdResult :=
  let c1 := cacheSet cache (selKey user_id) (.str domain_id)
  match get_file_info_with_domain db user_id domain_id with
  | none => ⟨none, none, 1, clearDomainData c1 user_id⟩
  | some file_info =>
    match get_file_content db (file_info.map (fun f => f.file_id)) with
    | none => ⟨none, none, 0, clearDomainData c1 user_id⟩
    | some (content, embeddings) =>
      let c2 := cacheSet (cacheSet c1 (contentKey user_id)
        (.contentRows content)) (embKey user_id) (.embMatrix embeddings)
      ⟨some (file_info.map (fun f => f.file_name)),
        some (file_info.map (fun f => f.file_id)), 1, c2⟩

/-- The file ids present in the cached domain_content entry of a user. -/
def cachedContentFileIds (c : Cache) (u : String) : List String :=
  match cacheGet c (contentKey u) with
  | some (.contentRows rows) => rows.map (fun r => r.file_id)
  | _ => []

/- Quota ledger and durable writes (app/db/database.py). -/

/-- Database.get_user_total_file_count: the file count of a user together
with the user tier; the source returns False when the user row is missing,
modelled as none. -/
def get_user_total_file_count (db : Db) (user_id : String) :
    Option (Nat × String) :=
  match db.user_info.find? (fun x => x.user_id == user_id) with
  | none => none
  | some uu =>
    some ((db.file_info.filter (fun x => x.user_id == user_id)).length,
      uu.user_type)

/-- A file_info row as assembled by upload_files before insertion (the
batch tuples carry no upload date column). -/
structure FileInfoIns where
  user_id : String
  file_id : String
  domain_id : String
  file_name : String
  file_modified_date : String
deriving DecidableEq, Repr

/-- A file_content row as assembled by upload_files before insertion. -/
structure ContentIns where
  file_id : String
  sentence : String
  page_number : Nat
  is_header : Bool
  is_table : Bool
  embedding : Nat
deriving DecidableEq, Repr

/-- Outcome of Database.insert_file_batches: the success dict, the quota
rejection dict, or the bare False returned from the except branch. -/
inductive BatchResult where
  | ok (message : String)
  | rejected (message : String)
  | failed
deriving DecidableEq, Repr

def freeFileLimitMsg (file_count : Nat) : String :=
  "Free users can only have 10 total files. You currently have " ++
    toString file_count ++ " files across all folders. Upgrade to add more!"

def premiumFileLimitMsg (file_count : Nat) : String :=
  "Premium users can only have 100 total files. You currently have " ++
    toString file_count ++ " files across all folders"

/-- The two batch inserts of Database._insert_file_info_batch and
Database._insert_file_content_batch. -/
def insertRows (db : Db) (fib : List FileInfoIns) (fcb : List ContentIns) : Db :=
  { db with
    file_info := db.file_info ++ fib.map
      (fun f => ⟨f.user_id, f.file_id, f.domain_id, f.file_name,
        f.file_modified_date, none⟩),
    file_content := db.file_content ++ fcb.map
      (fun r => ⟨r.file_id, r.sentence, r.page_number, r.is_header,
        r.is_table, r.embedding⟩) }

/-- Database.insert_file_batches: admission check against the tier ceiling,
then the two batch inserts. An empty batch or a missing user makes the
source raise and return False, modelled as the failed constructor; in both
rejection and failure the store is left unchanged. -/
def insert_file_batches (db : Db) (file_info_batch : List FileInfoIns)
    (file_content_batch : List ContentIns) : BatchResult × Db :=
  match file_info_batch with
  | [] => (.failed, db)
  | f :: _ =>
    match get_user_total_file_count db f.user_id with
    | none => (.failed, db)
    | some (file_count, user_type) =>
      if user_type = "free" ∧ file_count + file_info_batch.length > 10 then
        (.rejected (freeFileLimitMsg file_count), db)
      else if user_type = "premium" ∧ file_count + file_info_batch.length > 100 then
        (.rejected (premiumFileLimitMsg file_count), db)
      else
        (.ok "Files uploaded successfully",
          insertRows db file_info_batch file_content_batch)

/-- Outcome of Database.create_domain: the success dict, the quota rejection
dict, or the uncaught IndexError raised when the count query returns no row
(user missing or owning no domain). -/
inductive CreateRes where
  | error
  | rejected (message : String)
  | ok (domain_id : String)
deriving DecidableEq, Repr

def freeDomainLimitMsg : String :=
  "Free users can only create up to 3 domains. Upgrade account to create more domains!"

def premiumDomainLimitMsg : String :=
  "Premium users can only create up to 20 domains. Upgrade account to create more domains!"

/-- Database.create_domain: count the domains of the user (joined with the
user row), reject at the tier ceiling, otherwise insert the new domain row. -/
def create_domain (db : Db) (user_id domain_name domain_id : String)
    (domain_type : Nat) : CreateRes × Db :=
  let rows := db.domain_info.filter (fun x => x.user_id == user_id)
  match db.user_info.find? (fun x => x.user_id == user_id) with
  | none => (.error, db)
  | some uu =>
    if rows.isEmpty then (.error, db)
    else if uu.user_type = "free" ∧ 3 ≤ rows.length then
      (.rejected freeDomainLimitMsg, db)
    else if uu.user_type = "premium" ∧ 10 ≤ rows.length then
      (.rejected premiumDomainLimitMsg, db)
    else
      (.ok domain_id,
        { db with domain_info := db.domain_info ++
            [⟨user_id, domain_id, domain_name, domain_type⟩] })

/-- Database.delete_domain: fetch the domain type, return -1 for the
protected default domain (type 0), otherwise delete content rows of the
files of the domain, the file rows, and the domain row, returning 1 when
the final delete touched at least one row and 0 otherwise. Subscripting the
fetched row when the domain does not exist raises an uncaught TypeError in
the source, modelled as none. The store left behind by the three DELETE
statements (content of the domain files, file rows, domain row) is factored
into deleteDomainDb. -/
def deleteDomainDb (db : Db) (domain_id : String) : Db :=
  let file_ids := (db.file_info.filter
    (fun f => f.domain_id == domain_id)).map (fun f => f.file_id)
  { db with
      domain_info := db.domain_info.filter (fun x => !(x.domain_id == domain_id))
      file_info := db.file_info.filter (fun f => !(f.domain_id == domain_id))
      file_content := if file_ids.isEmpty then db.file_content
        else db.file_content.filter (fun c => !(file_ids.contains c.file_id)) }

def delete_domain (db : Db) (domain_id : String) : Option (Int × Db) :=
  match db.domain_info.find? (fun x => x.domain_id == domain_id) with
  | none => none
  | some row =>
    if row.domain_type = 0 then some (-1, db)
    else
      let rows_affected :=
        (db.domain_info.filter (fun d => d.domain_id == domain_id)).length
      some (if rows_affected > 0 then 1 else 0, deleteDomainDb db domain_id)

/- Session quota (Database.upsert_session_info). -/

/-- The rolling 24-hour window predicate of the daily-count query. -/
def inWindow (now t : Int) : Bool :=
  decide (now - 86400 ≤ t) && decide (t ≤ now)

/-- The predicate of the session lookup and update statements. -/
def sessionMatch (user_id session_id : String) (r : SessionRow) : Bool :=
  r.user_id == user_id && r.session_id == session_id

/-- The session rows of a user inside the rolling window. -/
def dailyRows (db : Db) (now : Int) (user_id : String) : List SessionRow :=
  db.session_info.filter
    (fun r => r.user_id == user_id && inWindow now r.created_at)

/-- The rolling 24-hour question count of a user over all sessions. -/
def dailySum (db : Db) (now : Int) (user_id : String) : Nat :=
  ((dailyRows db now user_id).map (fun r => r.question_count)).sum

/-- The daily-count query: sum of in-window question counts joined with the
user tier, grouped by tier; an empty result set (no user row or no in-window
session row) makes the source raise on subscripting, modelled as none. -/
def dailyCountType (db : Db) (now : Int) (user_id : String) :
    Option (Nat × String) :=
  match db.user_info.find? (fun x => x.user_id == user_id) with
  | none => none
  | some uu =>
    if dailyRows db now user_id = [] then none
    else some (dailySum db now user_id, uu.user_type)

/-- Outcome of Database.upsert_session_info: uncaught exception, quota
rejection (carrying the daily count the source places under question_count),
or success with the updated per-session count and the daily count. -/
inductive SessOutcome where
  | error
  | rejected (message : String) (question_count : Nat)
  | ok (question_count daily_count : Nat)
deriving DecidableEq, Repr

def sessionLimitMsg : String :=
  "Daily question limit reached for free user. Please try again tomorrow or upgrade your plan!"

/-- Database.upsert_session_info: insert (and commit) a fresh session row
when the (user, session) pair is new, compute the rolling daily count, reject
a free user at 25 or more, otherwise increment the question count of the
session row. -/
def upsert_session_info (db : Db) (now : Int) (user_id session_id : String) :
    SessOutcome × Db :=
  let exists0 := db.session_info.any (sessionMatch user_id session_id)
  let db1 := if exists0 then db else
    { db with session_info :=
        ⟨user_id, session_id, 0, 1, now, now⟩ :: db.session_info }
  match dailyCountType db1 now user_id with
  | none => (.error, db1)
  | some (daily_count, user_type) =>
    if user_type = "free" ∧ 25 ≤ daily_count then
      (.rejected sessionLimitMsg daily_count, db1)
    else
      let sess2 := db1.session_info.map (fun r =>
        if sessionMatch user_id session_id r then
          { r with
              question_count := r.question_count + 1
              last_enterance := now }
        else r)
      match sess2.find? (sessionMatch user_id session_id) with
      | none => (.error, db1)
      | some r => (.ok r.question_count daily_count,
          { db1 with session_info := sess2 })

/- Upload staging pipeline (endpoints.upload_files). -/

/-- The external Encryptor.encrypt collaborator, modelled as an opaque
pairing of the plaintext with the authentication data (the file id). -/
def encrypt (text auth_data : String) : String :=
  auth_data ++ ":" ++ text

/-- The content batch rows built for one staged upload: one row per
sentence, each encrypted under the assigned file id. -/
def contentRowsFor (fid : String) (ud : UploadData) : List ContentIns :=
  (List.range ud.sentences.length).map (fun i =>
    ⟨fid, encrypt (ud.sentences.getD i "") fid, ud.page_numbers.getD i 0,
      ud.is_headers.getD i false, ud.is_tables.getD i false,
      ud.embeddings.getD i 0⟩)

/-- Character-level prefix test (kept executable down to the kernel). -/
def charsLead : List Char → List Char → Bool
  | [], _ => true
  | _ :: _, [] => false
  | a :: as, b :: bs => a == b && charsLead as bs

/-- The pattern test of get_keys_by_pattern for user:ID:upload:*. -/
def keyHasBase (u k : String) : Bool := charsLead (uploadKeyBase u).data k.data

/-- The keys returned by get_keys_by_pattern for user:ID:upload:*. -/
def stagedKeys (c : Cache) (u : String) : List String :=
  (c.filter (fun p => keyHasBase u p.1)).map (fun p => p.1)

/-- Intermediate state of the staged-file loop of upload_files. -/
structure BatchBuild where
  fib : List FileInfoIns
  fcb : List ContentIns
  cache : Cache
  ctr : Nat
deriving DecidableEq, Repr

/-- The staged-file loop of upload_files: for each staged key, read the
payload, assign a fresh file id (uuid4 modelled by a counter), extend both
batches, and delete the key from the cache; a key whose payload is gone is
skipped. Deletion happens inside the loop, before any quota check. -/
def buildBatches (uid did : String) : List String → Cache → Nat → BatchBuild
  | [], c, ctr => ⟨[], [], c, ctr⟩
  | k :: ks, c, ctr =>
    match cacheGet c k with
    | some (.staged ud) =>
      let fid := "file-" ++ toString ctr
      let rest := buildBatches uid did ks (cacheErase c k) (ctr + 1)
      ⟨⟨uid, fid, did, ud.file_name, ud.last_modified⟩ :: rest.fib,
        contentRowsFor fid ud ++ rest.fcb, rest.cache, rest.ctr⟩
    | _ => buildBatches uid did ks c ctr

/-- Outcome of the upload_files endpoint. -/
inductive UploadOutcome where
  | invalidDomain
  | noFiles
  | quotaRejected (message : String)
  | errorOut
  | updateFailed
  | ok (file_names file_ids : Option (List String))
deriving DecidableEq, Repr

/-- Result of upload_files: outcome plus the store and cache it leaves. -/
structure UploadRes where
  outcome : UploadOutcome
  db : Db
  cache : Cache
deriving DecidableEq, Repr

/-- endpoints.upload_files: read the selected-domain pointer, validate the
domain, enumerate the staged uploads, build the batches (deleting each
staged key), run the quota-checked batch insert, and on success republish
the working set via update_selected_domain. -/
def upload_files (db : Db) (cache : Cache) (userID : String) (ctr : Nat) :
    UploadRes :=
  match cacheGet cache (selKey userID) with
  | some (.str selected_domain_id) =>
    match get_domain_info db userID selected_domain_id with
    | none => ⟨.invalidDomain, db, cache⟩
    | some _ =>
      let keys := stagedKeys cache userID
      if keys.isEmpty then ⟨.noFiles, db, cache⟩
      else
        let built := buildBatches userID selected_domain_id keys cache ctr
        match insert_file_batches db built.fib built.fcb with
        | (.failed, db2) => ⟨.errorOut, db2, built.cache⟩
        | (.rejected m, db2) => ⟨.quotaRejected m, db2, built.cache⟩
        | (.ok _, db2) =>
          let upd := update_selected_domain db2 built.cache userID
            selected_domain_id
          if upd.success = 0 then ⟨.updateFailed, db2, upd.cache⟩
          else ⟨.ok upd.file_names upd.file_ids, db2, upd.cache⟩
  | _ => ⟨.invalidDomain, db, cache⟩

/- Lemmas about the clearing helper used on the two invalidation paths. -/

theorem clearDomainData_get_content (c : Cache) (u : String) :
    cacheGet (clearDomainData c u) (contentKey u) = none := by
  unfold clearDomainData
  rw [cacheGet_erase_ne _ (contentKey_ne_boostKey u),
    cacheGet_erase_ne _ (contentKey_ne_indexHeaderKey u),
    cacheGet_erase_ne _ (contentKey_ne_indexKey u),
    cacheGet_erase_self]

theorem clearDomainData_get_index (c : Cache) (u : String) :
    cacheGet (clearDomainData c u) (indexKey u) = none := by
  unfold clearDomainData
  rw [cacheGet_erase_ne _ (indexKey_ne_boostKey u),
    cacheGet_erase_ne _ (indexKey_ne_indexHeaderKey u),
    cacheGet_erase_self]

theorem clearDomainData_get_indexHeader (c : Cache) (u : String) :
    cacheGet (clearDomainData c u) (indexHeaderKey u) = none := by
  unfold clearDomainData
  rw [cacheGet_erase_ne _ (indexHeaderKey_ne_boostKey u),
    cacheGet_erase_self]

theorem clearDomainData_get_boost (c : Cache) (u : String) :
    cacheGet (clearDomainData c u) (boostKey u) = none := by
  unfold clearDomainData
  rw [cacheGet_erase_self]

theorem clearDomainData_get_ne (c : Cache) (u : String) {k : String}
    (h1 : k ≠ contentKey u) (h2 : k ≠ indexKey u)
    (h3 : k ≠ indexHeaderKey u) (h4 : k ≠ boostKey u) :
    cacheGet (clearDomainData c u) k = cacheGet c k := by
  unfold clearDomainData
  rw [cacheGet_erase_ne _ h4, cacheGet_erase_ne _ h3,
    cacheGet_erase_ne _ h2, cacheGet_erase_ne _ h1]

/-- Claim C9: update_selected_domain writes the requested domain id to the
selected-domain cache key first, so after every call, including the
empty-domain and missing-content failure outcomes, the selected-domain
pointer holds the requested domain id; a failure outcome does not restore
the previous selection. -/
theorem claim9_theorem (db : Db) (c : Cache) (u d : String) :
    cacheGet (update_selected_domain db c u d).cache (selKey u) =
      some (.str d) := by
  cases hfi : get_file_info_with_domain db u d with
  | none =>
    simp only [update_selected_domain, hfi]
    rw [clearDomainData_get_ne _ _ (selKey_ne_contentKey u)
      (selKey_ne_indexKey u) (selKey_ne_indexHeaderKey u)
      (selKey_ne_boostKey u), cacheGet_set_self]
  | some file_info =>
    cases hfc : get_file_content db (file_info.map (fun f => f.file_id)) with
    | none =>
      simp only [update_selected_domain, hfi, hfc]
      rw [clearDomainData_get_ne _ _ (selKey_ne_contentKey u)
        (selKey_ne_indexKey u) (selKey_ne_indexHeaderKey u)
        (selKey_ne_boostKey u), cacheGet_set_self]
    | some p =>
      obtain ⟨content, embeddings⟩ := p
      simp only [update_selected_domain, hfi, hfc]
      rw [cacheGet_set_ne _ _ (selKey_ne_embKey u),
        cacheGet_set_ne _ _ (selKey_ne_contentKey u), cacheGet_set_self]

/-- Claim C8: running update_selected_domain twice in a row against an
unchanged store returns the same names, ids and status both times and leaves
the same cached working-set content and embeddings entries as the first
call, so back-to-back domain selections are idempotent. -/
theorem claim8_theorem (db : Db) (c : Cache) (u d : String) :
    (update_selected_domain db (update_selected_domain db c u d).cache u d).file_names
        = (update_selected_domain db c u d).file_names
    ∧ (update_selected_domain db (update_selected_domain db c u d).cache u d).file_ids
        = (update_selected_domain db c u d).file_ids
    ∧ (update_selected_domain db (update_selected_domain db c u d).cache u d).success
        = (update_selected_domain db c u d).success
    ∧ cacheGet (update_selected_domain db (update_selected_domain db c u d).cache u d).cache
        (contentKey u) = cacheGet (update_selected_domain db c u d).cache (contentKey u)
    ∧ cacheGet (update_selected_domain db (update_selected_domain db c u d).cache u d).cache
        (embKey u) = cacheGet (update_selected_domain db c u d).cache (embKey u) := by
  have hembne := fun (c3 : Cache) => clearDomainData_get_ne c3 u
    (embKey_ne_contentKey u) (embKey_ne_indexKey u)
    (embKey_ne_indexHeaderKey u) (embKey_ne_boostKey u)
  have hes := Ne.symm (selKey_ne_embKey u)
  have hce := Ne.symm (embKey_ne_contentKey u)
  cases hfi : get_file_info_with_domain db u d with
  | none =>
    simp only [update_selected_domain, hfi]
    refine ⟨trivial, trivial, trivial, ?_, ?_⟩
    · rw [clearDomainData_get_content, clearDomainData_get_content]
    · rw [hembne, cacheGet_set_ne _ _ hes, hembne, cacheGet_set_ne _ _ hes]
  | some file_info =>
    cases hfc : get_file_content db (file_info.map (fun f => f.file_id)) with
    | none =>
      simp only [update_selected_domain, hfi, hfc]
      refine ⟨trivial, trivial, trivial, ?_, ?_⟩
      · rw [clearDomainData_get_content, clearDomainData_get_content]
      · rw [hembne, cacheGet_set_ne _ _ hes, hembne, cacheGet_set_ne _ _ hes]
    | some p =>
      obtain ⟨content, embeddings⟩ := p
      simp only [update_selected_domain, hfi, hfc]
      refine ⟨trivial, trivial, trivial, ?_, ?_⟩
      · rw [cacheGet_set_ne _ _ hce, cacheGet_set_ne _ _ hce,
          cacheGet_set_self, cacheGet_set_self]
      · rw [cacheGet_set_self, cacheGet_set_self]

/-- Claim C2 (amended): when update_selected_domain finds no files in the
selected domain, or finds files but the content read comes back empty, it
publishes nothing (the cached content entry ends up absent, so no working
set built from a partial read is ever published) and deletes the cached
content together with the derived search-index artifacts (the index,
index_header and boost_info entries) — but it does not delete the cached
domain_embeddings entry, which keeps whatever value it had before the call. -/
theorem claim2_amended (db : Db) (c : Cache) (u d : String)
    (h : (update_selected_domain db c u d).file_ids = none) :
    cacheGet (update_selected_domain db c u d).cache (contentKey u) = none
    ∧ cacheGet (update_selected_domain db c u d).cache (indexKey u) = none
    ∧ cacheGet (update_selected_domain db c u d).cache (indexHeaderKey u) = none
    ∧ cacheGet (update_selected_domain db c u d).cache (boostKey u) = none
    ∧ cacheGet (update_selected_domain db c u d).cache (embKey u) =
        cacheGet c (embKey u) := by
  have hembne := fun (c3 : Cache) => clearDomainData_get_ne c3 u
    (embKey_ne_contentKey u) (embKey_ne_indexKey u)
    (embKey_ne_indexHeaderKey u) (embKey_ne_boostKey u)
  have hes := Ne.symm (selKey_ne_embKey u)
  cases hfi : get_file_info_with_domain db u d with
  | none =>
    simp only [update_selected_domain, hfi]
    exact ⟨clearDomainData_get_content _ u, clearDomainData_get_index _ u,
      clearDomainData_get_indexHeader _ u, clearDomainData_get_boost _ u,
      by rw [hembne, cacheGet_set_ne _ _ hes]⟩
  | some file_info =>
    cases hfc : get_file_content db (file_info.map (fun f => f.file_id)) with
    | none =>
      simp only [update_selected_domain, hfi, hfc]
      exact ⟨clearDomainData_get_content _ u, clearDomainData_get_index _ u,
        clearDomainData_get_indexHeader _ u, clearDomainData_get_boost _ u,
        by rw [hembne, cacheGet_set_ne _ _ hes]⟩
    | some p =>
      obtain ⟨content, embeddings⟩ := p
      simp only [update_selected_domain, hfi, hfc] at h
      exact absurd h (by simp)

/-- A store with one user owning two domains: d1 holds file f1 with one
content row, d2 holds no files. -/
def dbTwoDomains : Db :=
  ⟨[⟨"u1", "free"⟩],
   [⟨"u1", "d1", "First", 1⟩, ⟨"u1", "d2", "Second", 1⟩],
   [⟨"u1", "f1", "d1", "a.pdf", "2024-01-01", some "2024-01-01"⟩],
   [⟨"f1", "hello", 1, false, false, 7⟩],
   []⟩

/-- Claim C2 counterexample: selecting the populated domain d1 and then the
empty domain d2 takes the invalidation path (no file ids returned), yet the
cached domain_embeddings entry still holds the embeddings of d1 file f1 —
the invalidation does not delete the cached embeddings as the claim states. -/
theorem claim2_counterexample :
    (update_selected_domain dbTwoDomains
      (update_selected_domain dbTwoDomains [] "u1" "d1").cache "u1" "d2").file_ids
        = none
    ∧ cacheGet (update_selected_domain dbTwoDomains
        (update_selected_domain dbTwoDomains [] "u1" "d1").cache "u1" "d2").cache
        (embKey "u1") = some (.embMatrix [7]) := by
  decide

/-- Claim C2 witness: the amended statement applied to the concrete store at
the empty domain d2, starting from an empty cache. -/
theorem claim2_witness :
    cacheGet (update_selected_domain dbTwoDomains [] "u1" "d2").cache
        (contentKey "u1") = none
    ∧ cacheGet (update_selected_domain dbTwoDomains [] "u1" "d2").cache
        (indexKey "u1") = none
    ∧ cacheGet (update_selected_domain dbTwoDomains [] "u1" "d2").cache
        (indexHeaderKey "u1") = none
    ∧ cacheGet (update_selected_domain dbTwoDomains [] "u1" "d2").cache
        (boostKey "u1") = none
    ∧ cacheGet (update_selected_domain dbTwoDomains [] "u1" "d2").cache
        (embKey "u1") = cacheGet [] (embKey "u1") :=
  claim2_amended dbTwoDomains [] "u1" "d2" (by decide)

/-- A store where domain d1 owns files f1 and f2 but only f1 has content
rows: a reachable store-inconsistency shape (for example after content rows
are deleted without the file row, or a failed content insert). -/
def dbPartialContent : Db :=
  ⟨[⟨"u1", "free"⟩],
   [⟨"u1", "d1", "First", 1⟩],
   [⟨"u1", "f1", "d1", "a.pdf", "2024-01-01", some "2024-01-01"⟩,
    ⟨"u1", "f2", "d1", "b.pdf", "2024-01-02", some "2024-01-02"⟩],
   [⟨"f1", "hello", 1, false, false, 7⟩],
   []⟩

/-- Claim C1 counterexample: after update_selected_domain completes with the
active-domain outcome, readDomainFiles reports file ids f1 and f2, but the
published working set holds content only for f1 — the file f2 of the
selected domain is omitted, contradicting the claimed no-file-omitted
membership invariant. -/
theorem claim1_counterexample :
    (update_selected_domain dbPartialContent [] "u1" "d1").success = 1
    ∧ (update_selected_domain dbPartialContent [] "u1" "d1").file_ids =
        some ["f1", "f2"]
    ∧ cachedContentFileIds
        (update_selected_domain dbPartialContent [] "u1" "d1").cache "u1" =
        ["f1"] := by
  decide

/-- Claim C1 (amended): after update_selected_domain publishes an active
domain (it returned a file id list), the cached domain_content entry holds
content for exactly those files of the returned domain membership that have
at least one content row in the store; a domain file with no content rows
is omitted, and on the invalidation paths the stale domain_embeddings entry
survives, so the claimed exact-membership invariant holds only for the
content entry and only for files that have content. -/
theorem claim1_amended (db : Db) (c : Cache) (u d : String) (ids : List String)
    (h : (update_selected_domain db c u d).file_ids = some ids) :
    ∀ f, f ∈ cachedContentFileIds (update_selected_domain db c u d).cache u ↔
      (f ∈ ids ∧ ∃ r ∈ db.file_content, r.file_id = f) := by
  cases hfi : get_file_info_with_domain db u d with
  | none =>
    simp only [update_selected_domain, hfi] at h
    exact absurd h (by simp)
  | some file_info =>
    cases hfc : get_file_content db (file_info.map (fun f => f.file_id)) with
    | none =>
      simp only [update_selected_domain, hfi, hfc] at h
      exact absurd h (by simp)
    | some p =>
      obtain ⟨content, embeddings⟩ := p
      have hids : ids = file_info.map (fun f => f.file_id) := by
        simp only [update_selected_domain, hfi, hfc] at h
        exact (Option.some.inj h).symm
      have hce := Ne.symm (embKey_ne_contentKey u)
      have hget : cacheGet (update_selected_domain db c u d).cache
          (contentKey u) = some (.contentRows content) := by
        simp only [update_selected_domain, hfi, hfc]
        rw [cacheGet_set_ne _ _ hce, cacheGet_set_self]
      simp only [get_file_content] at hfc
      split_ifs at hfc with he hr
      rw [Option.some.injEq, Prod.mk.injEq] at hfc
      obtain ⟨hcont, hemb⟩ := hfc
      intro f
      subst hids
      simp only [cachedContentFileIds, hget, ← hcont, List.map_map]
      constructor
      · intro hf
        obtain ⟨r, hrmem, hrf⟩ := List.mem_map.mp hf
        obtain ⟨hr1, hr2⟩ := List.mem_filter.mp hrmem
        have hrf2 : r.file_id = f := hrf
        have hin : r.file_id ∈ file_info.map (fun f => f.file_id) :=
          List.elem_iff.mp hr2
        exact ⟨hrf2 ▸ hin, r, hr1, hrf2⟩
      · rintro ⟨hin, r, hr1, hrf⟩
        refine List.mem_map.mpr ⟨r, List.mem_filter.mpr ⟨hr1, ?_⟩, hrf⟩
        exact List.elem_iff.mpr (hrf ▸ hin)

/-- Claim C1 witness: the amended statement applied to the concrete store
dbTwoDomains, where domain d1 owns file f1 that has a content row; f1 is in
the published working-set content. -/
theorem claim1_witness :
    "f1" ∈ cachedContentFileIds
      (update_selected_domain dbTwoDomains [] "u1" "d1").cache "u1" :=
  (claim1_amended dbTwoDomains [] "u1" "d1" ["f1"] (by decide) "f1").mpr
    ⟨by decide, ⟨"f1", "hello", 1, false, false, 7⟩, by decide, rfl⟩

/- Claim C4: delete_domain result values. -/

/-- A store with a protected default domain d0 (type 0) and a user domain d1
(type 1) holding one file with content. -/
def dbDomains : Db :=
  ⟨[⟨"u1", "free"⟩],
   [⟨"u1", "d0", "Default", 0⟩, ⟨"u1", "d1", "Work", 1⟩],
   [⟨"u1", "g0", "d0", "guide.pdf", "2024-01-01", some "2024-01-01"⟩,
    ⟨"u1", "g1", "d1", "work.pdf", "2024-01-02", some "2024-01-02"⟩],
   [⟨"g0", "guide text", 1, false, false, 3⟩,
    ⟨"g1", "work text", 1, false, false, 4⟩],
   []⟩

/-- Claim C4 counterexample: called on a domain id that matches no row,
delete_domain subscripts the missing fetch result and raises an uncaught
TypeError (modelled as none) instead of returning the claimed 0. -/
theorem claim4_counterexample : delete_domain dbDomains "nope" = none := by
  decide

/-- Claim C4 (amended): for a domain id that exists, delete_domain returns
-1 when the domain is the protected default (type 0) and then leaves the
store untouched, and returns 1 otherwise, leaving no content row for any
file that belonged to the domain; 0 could only arise if the final delete
matched no row, and a nonexistent domain id makes the call raise an uncaught
TypeError (modelled as none) rather than return 0. -/
theorem claim4_amended (db : Db) (d : String) (row : DomainRow)
    (hfind : db.domain_info.find? (fun x => x.domain_id == d) = some row) :
    (row.domain_type = 0 → delete_domain db d = some (-1, db))
    ∧ (row.domain_type ≠ 0 →
        delete_domain db d = some (1, deleteDomainDb db d)
          ∧ ∀ c ∈ (deleteDomainDb db d).file_content, ∀ f ∈ db.file_info,
              f.domain_id = d → c.file_id ≠ f.file_id) := by
  have hrowmem := List.mem_of_find?_eq_some hfind
  have hrowid := List.find?_some hfind
  constructor
  · intro h0
    simp [delete_domain, hfind, h0]
  · intro hne
    have hpos : 0 <
        (db.domain_info.filter (fun x => x.domain_id == d)).length := by
      apply List.length_pos.mpr
      intro hnil
      have hmem : row ∈ db.domain_info.filter (fun x => x.domain_id == d) :=
        List.mem_filter.mpr ⟨hrowmem, hrowid⟩
      rw [hnil] at hmem
      exact List.not_mem_nil row hmem
    refine ⟨by simp [delete_domain, hfind, hne, hpos], ?_⟩
    intro cr hcr f hf hfd
    by_cases hids : ((db.file_info.filter
        (fun f => f.domain_id == d)).map (fun f => f.file_id)).isEmpty
    · exfalso
      have hfmem : f ∈ db.file_info.filter (fun f => f.domain_id == d) :=
        List.mem_filter.mpr ⟨hf, by simp [hfd]⟩
      rw [List.isEmpty_iff, List.map_eq_nil_iff] at hids
      rw [hids] at hfmem
      exact List.not_mem_nil f hfmem
    · have hfmem : f.file_id ∈ (db.file_info.filter
          (fun f => f.domain_id == d)).map (fun f => f.file_id) :=
        List.mem_map.mpr ⟨f, List.mem_filter.mpr ⟨hf, by simp [hfd]⟩, rfl⟩
      simp only [deleteDomainDb, hids, if_false] at hcr
      obtain ⟨hcr1, hcr2⟩ := List.mem_filter.mp hcr
      intro heq
      have hmem2 : cr.file_id ∈ (db.file_info.filter
          (fun f => f.domain_id == d)).map (fun f => f.file_id) := heq ▸ hfmem
      simp [hmem2] at hcr2

/-- Claim C4 witness: the amended statement at the concrete store dbDomains,
for the protected default domain d0 and for the deletable domain d1; the
content row of the d1 file g1 is gone after deletion. -/
theorem claim4_witness :
    delete_domain dbDomains "d0" = some (-1, dbDomains)
    ∧ delete_domain dbDomains "d1" = some (1, deleteDomainDb dbDomains "d1") :=
  ⟨(claim4_amended dbDomains "d0" ⟨"u1", "d0", "Default", 0⟩ (by decide)).1 rfl,
    ((claim4_amended dbDomains "d1" ⟨"u1", "d1", "Work", 1⟩ (by decide)).2
      (by decide)).1⟩

/- Claim C5: file-batch admission boundary. -/

/-- Claim C5: a file batch is rejected exactly when the current file count
plus the batch size exceeds the tier ceiling (10 free, 100 premium), and the
rejection message reports the current count together with the ceiling; below
or at the ceiling the insert succeeds. -/
theorem claim5_theorem (db : Db) (f : FileInfoIns) (rest : List FileInfoIns)
    (fcb : List ContentIns) (file_count : Nat) (t : String)
    (hget : get_user_total_file_count db f.user_id = some (file_count, t))
    (ht : t = "free" ∨ t = "premium") :
    (file_count + (f :: rest).length ≤ (if t = "free" then 10 else 100) →
      (insert_file_batches db (f :: rest) fcb).1 =
        .ok "Files uploaded successfully")
    ∧ (file_count + (f :: rest).length > (if t = "free" then 10 else 100) →
      (insert_file_batches db (f :: rest) fcb).1 =
        .rejected (if t = "free" then freeFileLimitMsg file_count
          else premiumFileLimitMsg file_count)) := by
  rcases ht with h | h <;> subst h <;>
    refine ⟨?_, ?_⟩ <;> intro hc <;> simp only [insert_file_batches, hget] <;>
    split_ifs with h1 h2 <;> simp_all <;> omega

/-- A free-tier user owning 9 files. -/
def dbNineFiles : Db :=
  ⟨[⟨"u1", "free"⟩], [⟨"u1", "d1", "Docs", 1⟩],
   [⟨"u1", "f1", "d1", "n1", "2024-01-01", none⟩,
    ⟨"u1", "f2", "d1", "n2", "2024-01-01", none⟩,
    ⟨"u1", "f3", "d1", "n3", "2024-01-01", none⟩,
    ⟨"u1", "f4", "d1", "n4", "2024-01-01", none⟩,
    ⟨"u1", "f5", "d1", "n5", "2024-01-01", none⟩,
    ⟨"u1", "f6", "d1", "n6", "2024-01-01", none⟩,
    ⟨"u1", "f7", "d1", "n7", "2024-01-01", none⟩,
    ⟨"u1", "f8", "d1", "n8", "2024-01-01", none⟩,
    ⟨"u1", "f9", "d1", "n9", "2024-01-01", none⟩],
   [], []⟩

/-- Claim C5 witness: the quota boundary at the concrete store of a free
user with 9 files — a batch of 1 is accepted, a batch of 2 is rejected with
the message reporting current count 9 and limit 10. -/
theorem claim5_witness :
    (insert_file_batches dbNineFiles
      [⟨"u1", "fA", "d1", "a.pdf", "2024-01-01"⟩] []).1 =
        .ok "Files uploaded successfully"
    ∧ (insert_file_batches dbNineFiles
      [⟨"u1", "fA", "d1", "a.pdf", "2024-01-01"⟩,
       ⟨"u1", "fB", "d1", "b.pdf", "2024-01-01"⟩] []).1 =
        .rejected (freeFileLimitMsg 9) := by
  constructor
  · exact (claim5_theorem dbNineFiles ⟨"u1", "fA", "d1", "a.pdf", "2024-01-01"⟩
      [] [] 9 "free" (by decide) (Or.inl rfl)).1 (by decide)
  · have h := (claim5_theorem dbNineFiles
      ⟨"u1", "fA", "d1", "a.pdf", "2024-01-01"⟩
      [⟨"u1", "fB", "d1", "b.pdf", "2024-01-01"⟩] [] 9 "free"
      (by decide) (Or.inl rfl)).2 (by decide)
    simpa using h

/- Claim C7: domain-creation admission. -/

/-- Claim C7 (amended): domain creation is rejected exactly when the current
domain count meets the tier ceiling (3 free, 10 premium), but the admission
failure carries only a fixed per-tier message: it does not include the
current count, and the premium message states the ceiling as 20 although the
enforced ceiling is 10. -/
theorem claim7_amended (db : Db) (u name did : String) (dtype : Nat)
    (uu : UserRow)
    (hu : db.user_info.find? (fun x => x.user_id == u) = some uu)
    (hdom : ¬(db.domain_info.filter (fun x => x.user_id == u)).isEmpty) :
    (uu.user_type = "free" →
      (3 ≤ (db.domain_info.filter (fun x => x.user_id == u)).length →
        (create_domain db u name did dtype).1 = .rejected freeDomainLimitMsg)
      ∧ ((db.domain_info.filter (fun x => x.user_id == u)).length < 3 →
        (create_domain db u name did dtype).1 = .ok did))
    ∧ (uu.user_type = "premium" →
      (10 ≤ (db.domain_info.filter (fun x => x.user_id == u)).length →
        (create_domain db u name did dtype).1 = .rejected premiumDomainLimitMsg)
      ∧ ((db.domain_info.filter (fun x => x.user_id == u)).length < 10 →
        (create_domain db u name did dtype).1 = .ok did)) := by
  constructor <;> intro ht <;> constructor <;> intro hcnt <;>
    simp only [create_domain, hu, ht] <;>
    split_ifs with h1 h2 <;> simp_all <;> omega

/-- A free user owning exactly 3 domains. -/
def dbThreeDomains : Db :=
  ⟨[⟨"u1", "free"⟩],
   [⟨"u1", "dA", "A", 0⟩, ⟨"u1", "dB", "B", 1⟩, ⟨"u1", "dC", "C", 1⟩],
   [], [], []⟩

/-- A free user owning 5 domains. -/
def dbFiveDomains : Db :=
  ⟨[⟨"u1", "free"⟩],
   [⟨"u1", "dA", "A", 0⟩, ⟨"u1", "dB", "B", 1⟩, ⟨"u1", "dC", "C", 1⟩,
    ⟨"u1", "dD", "D", 1⟩, ⟨"u1", "dE", "E", 1⟩],
   [], [], []⟩

/-- A premium user owning exactly 10 domains. -/
def dbTenPremium : Db :=
  ⟨[⟨"p1", "premium"⟩],
   [⟨"p1", "e0", "A", 0⟩, ⟨"p1", "e1", "B", 1⟩, ⟨"p1", "e2", "C", 1⟩,
    ⟨"p1", "e3", "D", 1⟩, ⟨"p1", "e4", "E", 1⟩, ⟨"p1", "e5", "F", 1⟩,
    ⟨"p1", "e6", "G", 1⟩, ⟨"p1", "e7", "H", 1⟩, ⟨"p1", "e8", "I", 1⟩,
    ⟨"p1", "e9", "J", 1⟩],
   [], [], []⟩

/-- Claim C7 counterexample: the rejection message is one fixed string per
tier — a free user rejected at current count 3 and at current count 5 gets
the identical message, so the failure cannot carry the current count; and a
premium user enforced at the ceiling of 10 gets a message that states the
ceiling as 20, so the failure does not carry the applicable ceiling either. -/
theorem claim7_counterexample :
    (create_domain dbThreeDomains "u1" "New" "dx" 1).1 =
      .rejected freeDomainLimitMsg
    ∧ (create_domain dbFiveDomains "u1" "New" "dx" 1).1 =
      .rejected freeDomainLimitMsg
    ∧ (create_domain dbTenPremium "p1" "New" "dx" 1).1 =
      .rejected premiumDomainLimitMsg
    ∧ premiumDomainLimitMsg =
      "Premium users can only create up to 20 domains. Upgrade account to create more domains!" := by
  decide

/-- Claim C7 witness: the amended statement applied at the free tier ceiling
(3 domains) of the concrete store. -/
theorem claim7_witness :
    (create_domain dbThreeDomains "u1" "New" "dx" 1).1 =
      .rejected freeDomainLimitMsg :=
  ((claim7_amended dbThreeDomains "u1" "New" "dx" 1 ⟨"u1", "free"⟩
    (by decide) (by decide)).1 rfl).1 (by decide)

/- Supporting lemmas for the session quota. -/

theorem inWindow_self (now : Int) : inWindow now now = true := by
  simp [inWindow]

theorem dailyRows_insert (db : Db) (now : Int) (u s : String) :
    dailyRows { db with session_info :=
      (⟨u, s, 0, 1, now, now⟩ : SessionRow) :: db.session_info } now u =
    (⟨u, s, 0, 1, now, now⟩ : SessionRow) :: dailyRows db now u := by
  simp [dailyRows, List.filter_cons, inWindow_self]

theorem dailySum_insert (db : Db) (now : Int) (u s : String) :
    dailySum { db with session_info :=
      (⟨u, s, 0, 1, now, now⟩ : SessionRow) :: db.session_info } now u =
    dailySum db now u := by
  simp [dailySum, dailyRows_insert]

theorem dailyRows_ne_nil (db : Db) (now : Int) (u : String)
    (h : 1 ≤ dailySum db now u) : dailyRows db now u ≠ [] := by
  intro hnil
  unfold dailySum at h
  rw [hnil] at h
  simp at h

theorem map_no_update {p : SessionRow → Bool} {f : SessionRow → SessionRow}
    {l : List SessionRow} (h : ∀ r ∈ l, p r = false) :
    l.map (fun r => if p r then f r else r) = l := by
  induction l with
  | nil => rfl
  | cons a rest ih =>
    have ha := h a (List.mem_cons_self a rest)
    have ih2 := ih (fun r hr => h r (List.mem_cons_of_mem a hr))
    simp [ha, ih2]

theorem upsert_rejects (db : Db) (now : Int) (u s : String) (uu : UserRow)
    (hu : db.user_info.find? (fun x => x.user_id == u) = some uu)
    (ht : uu.user_type = "free") (h25 : 25 ≤ dailySum db now u) :
    (upsert_session_info db now u s).1 =
      .rejected sessionLimitMsg (dailySum db now u) := by
  by_cases hex : db.session_info.any (sessionMatch u s) = true
  · have hdc : dailyCountType db now u =
        some (dailySum db now u, uu.user_type) := by
      simp only [dailyCountType, hu]
      rw [if_neg (dailyRows_ne_nil db now u (by omega))]
    simp only [upsert_session_info, hex, if_true, hdc]
    rw [if_pos ⟨ht, h25⟩]
  · have hex2 : db.session_info.any (sessionMatch u s) = false := by
      revert hex
      cases db.session_info.any (sessionMatch u s) <;> simp
    have hdc : dailyCountType { db with session_info :=
        (⟨u, s, 0, 1, now, now⟩ : SessionRow) :: db.session_info } now u =
        some (dailySum db now u, uu.user_type) := by
      simp [dailyCountType, hu, dailyRows_insert, dailySum_insert]
    simp only [upsert_session_info, hex2, Bool.false_eq_true, if_false, hdc]
    rw [if_pos ⟨ht, h25⟩]

theorem dailyRows_cons_match (db : Db) (now : Int) (u s : String)
    (qc te : Nat) (le2 : Int) :
    dailyRows { db with session_info :=
      (⟨u, s, qc, te, now, le2⟩ : SessionRow) :: db.session_info } now u =
    (⟨u, s, qc, te, now, le2⟩ : SessionRow) :: dailyRows db now u := by
  simp [dailyRows, List.filter_cons, inWindow_self]

theorem upsert_ok_fresh (db : Db) (now : Int) (u s : String) (uu : UserRow)
    (hu : db.user_info.find? (fun x => x.user_id == u) = some uu)
    (ht : uu.user_type = "free") (h24 : dailySum db now u = 24)
    (hnew : db.session_info.any (sessionMatch u s) = false) :
    (upsert_session_info db now u s).1 = .ok 1 24
    ∧ dailySum (upsert_session_info db now u s).2 now u = 25 := by
  have hdc : dailyCountType { db with session_info :=
      (⟨u, s, 0, 1, now, now⟩ : SessionRow) :: db.session_info } now u =
      some (24, uu.user_type) := by
    simp [dailyCountType, hu, dailyRows_insert, dailySum_insert, h24]
  have hm : sessionMatch u s (⟨u, s, 0, 1, now, now⟩ : SessionRow) = true := by
    simp [sessionMatch]
  have hno : ∀ r ∈ db.session_info, sessionMatch u s r = false := by
    intro r hr
    have h2 := (List.any_eq_false.mp hnew) r hr
    revert h2
    cases sessionMatch u s r <;> simp
  have hcond : ¬(uu.user_type = "free" ∧ 25 ≤ 24) := by
    rintro ⟨-, hle⟩
    omega
  have hrun : upsert_session_info db now u s =
      (.ok 1 24, { db with session_info :=
        (⟨u, s, 1, 1, now, now⟩ : SessionRow) :: db.session_info }) := by
    simp only [upsert_session_info, hnew, Bool.false_eq_true, if_false, hdc]
    rw [if_neg hcond]
    simp only [List.map_cons]
    rw [map_no_update hno]
    simp [hm, sessionMatch, List.find?_cons]
  refine ⟨by rw [hrun], ?_⟩
  rw [hrun]
  unfold dailySum
  rw [dailyRows_cons_match]
  simp only [List.map_cons, List.sum_cons]
  rw [show ((dailyRows db now u).map (fun r => r.question_count)).sum =
    dailySum db now u from rfl, h24]

theorem upsert_premium_no_reject (db : Db) (now : Int) (u s : String)
    (uu : UserRow)
    (hu : db.user_info.find? (fun x => x.user_id == u) = some uu)
    (ht : uu.user_type = "premium") :
    ∀ m qc, (upsert_session_info db now u s).1 ≠ .rejected m qc := by
  intro m qc
  by_cases hex : db.session_info.any (sessionMatch u s) = true
  · simp only [upsert_session_info, hex, if_true]
    cases hdc : dailyCountType db now u with
    | none => simp [hdc]
    | some p =>
      obtain ⟨dc, tp⟩ := p
      have htp : tp = uu.user_type := by
        simp only [dailyCountType, hu] at hdc
        split at hdc
        · exact absurd hdc (by simp)
        · rw [Option.some.injEq, Prod.mk.injEq] at hdc
          exact hdc.2.symm
      have hcnot : ¬(tp = "free" ∧ 25 ≤ dc) := by
        rintro ⟨hf, -⟩
        rw [htp, ht] at hf
        exact absurd hf (by decide)
      simp only [hdc]
      rw [if_neg hcnot]
      split <;> simp
  · have hex2 : db.session_info.any (sessionMatch u s) = false := by
      revert hex
      cases db.session_info.any (sessionMatch u s) <;> simp
    simp only [upsert_session_info, hex2, Bool.false_eq_true, if_false]
    cases hdc : dailyCountType { db with session_info :=
        (⟨u, s, 0, 1, now, now⟩ : SessionRow) :: db.session_info } now u with
    | none => simp [hdc]
    | some p =>
      obtain ⟨dc, tp⟩ := p
      have htp : tp = uu.user_type := by
        simp only [dailyCountType, hu] at hdc
        split at hdc
        · exact absurd hdc (by simp)
        · rw [Option.some.injEq, Prod.mk.injEq] at hdc
          exact hdc.2.symm
      have hcnot : ¬(tp = "free" ∧ 25 ≤ dc) := by
        rintro ⟨hf, -⟩
        rw [htp, ht] at hf
        exact absurd hf (by decide)
      simp only [hdc]
      rw [if_neg hcnot]
      split <;> simp

/-- Claim C6 (amended): before answering, the rolling 24-hour question count
over all sessions of the user is checked: a free user whose count is 25 or
more is rejected, a free user at 24 asking through a session not yet on
record succeeds and the rolling count becomes 25, and a premium user is
never rejected by this check. When the incremented session row was created
outside the trailing window, however, the rolling count does not grow (see
the counterexample), so the at-24-becomes-25 part holds only when the
incremented session row lies inside the window, as a fresh one does. -/
theorem claim6_theorem (db : Db) (now : Int) (u s : String) (uu : UserRow)
    (hu : db.user_info.find? (fun x => x.user_id == u) = some uu) :
    (uu.user_type = "free" → 25 ≤ dailySum db now u →
      (upsert_session_info db now u s).1 =
        .rejected sessionLimitMsg (dailySum db now u))
    ∧ (uu.user_type = "free" → dailySum db now u = 24 →
        db.session_info.any (sessionMatch u s) = false →
        (upsert_session_info db now u s).1 = .ok 1 24
        ∧ dailySum (upsert_session_info db now u s).2 now u = 25)
    ∧ (uu.user_type = "premium" →
        ∀ m qc, (upsert_session_info db now u s).1 ≠ .rejected m qc) :=
  ⟨fun ht h25 => upsert_rejects db now u s uu hu ht h25,
   fun ht h24 hnew => upsert_ok_fresh db now u s uu hu ht h24 hnew,
   fun ht => upsert_premium_no_reject db now u s uu hu ht⟩

/-- A free user with 24 in-window questions on session sA and a stale
session sB created outside the rolling 24-hour window. -/
def dbSessOld : Db :=
  ⟨[⟨"u1", "free"⟩], [], [], [],
   [⟨"u1", "sA", 24, 1, 999999, 999999⟩,
    ⟨"u1", "sB", 0, 1, 0, 0⟩]⟩

/-- A free user with 25 in-window questions. -/
def dbSess25 : Db :=
  ⟨[⟨"u1", "free"⟩], [], [], [],
   [⟨"u1", "sA", 25, 1, 999999, 999999⟩]⟩

/-- Claim C6 counterexample: a free user at rolling count 24 asking through
the stale out-of-window session sB succeeds, but the increment lands on a
row outside the window, so the rolling count stays 24 instead of becoming
25 as the claim states. -/
theorem claim6_counterexample :
    dailySum dbSessOld 1000000 "u1" = 24
    ∧ (upsert_session_info dbSessOld 1000000 "u1" "sB").1 = .ok 1 24
    ∧ dailySum (upsert_session_info dbSessOld 1000000 "u1" "sB").2
        1000000 "u1" = 24 := by
  decide

/-- Claim C6 witness: the amended statement at concrete stores — a free user
at 24 with a fresh session succeeds and reaches 25, and a free user at 25 is
rejected with the limit message carrying the daily count. -/
theorem claim6_witness :
    ((upsert_session_info dbSessOld 1000000 "u1" "sNew").1 = .ok 1 24
      ∧ dailySum (upsert_session_info dbSessOld 1000000 "u1" "sNew").2
          1000000 "u1" = 25)
    ∧ (upsert_session_info dbSess25 1000000 "u1" "sX").1 =
        .rejected sessionLimitMsg 25 := by
  constructor
  · exact (claim6_theorem dbSessOld 1000000 "u1" "sNew" ⟨"u1", "free"⟩
      (by decide)).2.1 rfl (by decide) (by decide)
  · have h3 := (claim6_theorem dbSess25 1000000 "u1" "sX" ⟨"u1", "free"⟩
      (by decide)).1 rfl (by decide)
    rw [show dailySum dbSess25 1000000 "u1" = 25 from by decide] at h3
    exact h3

/-- Claim C10: when upsert_session_info rejects a question at the daily
ceiling, no existing session row is changed — the increment runs only on
the success path, so if the (user, session) pair already had a row the store
is returned untouched — but if the pair had no row yet, the fresh session
row with question_count 0 was already inserted and committed before the
limit check, so a rejected attempt can still change durable session state. -/
theorem claim10_theorem (db : Db) (now : Int) (u s m : String) (qc : Nat)
    (h : (upsert_session_info db now u s).1 = .rejected m qc) :
    (db.session_info.any (sessionMatch u s) = true →
      (upsert_session_info db now u s).2 = db)
    ∧ (db.session_info.any (sessionMatch u s) = false →
      (upsert_session_info db now u s).2 = { db with session_info :=
        (⟨u, s, 0, 1, now, now⟩ : SessionRow) :: db.session_info }) := by
  constructor
  · intro hex
    simp only [upsert_session_info, hex, if_true] at h ⊢
    cases hdc : dailyCountType db now u with
    | none => simp [hdc] at h
    | some p =>
      obtain ⟨dc, tp⟩ := p
      simp only [hdc] at h ⊢
      by_cases hcond : tp = "free" ∧ 25 ≤ dc
      · rw [if_pos hcond]
      · rw [if_neg hcond] at h
        split at h <;> simp at h
  · intro hex
    simp only [upsert_session_info, hex, Bool.false_eq_true, if_false] at h ⊢
    cases hdc : dailyCountType { db with session_info :=
        (⟨u, s, 0, 1, now, now⟩ : SessionRow) :: db.session_info } now u with
    | none => simp [hdc] at h
    | some p =>
      obtain ⟨dc, tp⟩ := p
      simp only [hdc] at h ⊢
      by_cases hcond : tp = "free" ∧ 25 ≤ dc
      · rw [if_pos hcond]
      · rw [if_neg hcond] at h
        split at h <;> simp at h

/-- Claim C10 witness: a free user at 25 asking through a session id with no
row on record is rejected, yet the returned store carries the freshly
inserted session row with question_count 0. -/
theorem claim10_witness :
    (upsert_session_info dbSess25 1000000 "u1" "sNew").2 =
      { dbSess25 with session_info :=
        (⟨"u1", "sNew", 0, 1, 1000000, 1000000⟩ : SessionRow) ::
          dbSess25.session_info } :=
  (claim10_theorem dbSess25 1000000 "u1" "sNew" sessionLimitMsg 25
    (by decide)).2 (by decide)

/- Supporting lemmas for the upload pipeline. -/

theorem buildBatches_get_none (uid did : String) (keys : List String)
    (c : Cache) (ctr : Nat) (k : String) (h : cacheGet c k = none) :
    cacheGet (buildBatches uid did keys c ctr).cache k = none := by
  induction keys generalizing c ctr with
  | nil => simpa [buildBatches] using h
  | cons k2 ks ih =>
    cases hv : cacheGet c k2 with
    | none =>
      simp only [buildBatches, hv]
      exact ih c ctr h
    | some v =>
      cases v with
      | staged ud =>
        simp only [buildBatches, hv]
        exact ih _ _ (cacheGet_none_erase c k k2 h)
      | str s2 =>
        simp only [buildBatches, hv]
        exact ih c ctr h
      | contentRows r =>
        simp only [buildBatches, hv]
        exact ih c ctr h
      | embMatrix r =>
        simp only [buildBatches, hv]
        exact ih c ctr h

theorem buildBatches_removes (uid did : String) (keys : List String)
    (c : Cache) (ctr : Nat) :
    ∀ k ∈ keys, (∃ ud, cacheGet c k = some (.staged ud)) →
      cacheGet (buildBatches uid did keys c ctr).cache k = none := by
  induction keys generalizing c ctr with
  | nil =>
    intro k hk
    simp at hk
  | cons k2 ks ih =>
    intro k hk hud
    obtain ⟨ud, hget⟩ := hud
    rcases List.mem_cons.mp hk with hk2 | hk2
    · subst hk2
      simp only [buildBatches, hget]
      exact buildBatches_get_none uid did ks _ _ k (cacheGet_erase_self c k)
    · cases hv : cacheGet c k2 with
      | none =>
        simp only [buildBatches, hv]
        exact ih c ctr k hk2 ⟨ud, hget⟩
      | some v =>
        cases v with
        | staged ud2 =>
          simp only [buildBatches, hv]
          by_cases hkk : k = k2
          · subst hkk
            exact buildBatches_get_none uid did ks _ _ k
              (cacheGet_erase_self c k)
          · exact ih _ _ k hk2
              ⟨ud, by rw [cacheGet_erase_ne c hkk]; exact hget⟩
        | str s2 =>
          simp only [buildBatches, hv]
          exact ih c ctr k hk2 ⟨ud, hget⟩
        | contentRows r =>
          simp only [buildBatches, hv]
          exact ih c ctr k hk2 ⟨ud, hget⟩
        | embMatrix r =>
          simp only [buildBatches, hv]
          exact ih c ctr k hk2 ⟨ud, hget⟩

theorem mem_stagedKeys {c : Cache} {u k : String} {v : CacheVal}
    (hget : cacheGet c k = some v) (hpre : keyHasBase u k = true) :
    k ∈ stagedKeys c u :=
  List.mem_map.mpr ⟨(k, v), List.mem_filter.mpr ⟨cacheGet_mem hget, hpre⟩, rfl⟩

theorem insert_file_batches_rejected_db (db : Db) (fib : List FileInfoIns)
    (fcb : List ContentIns) (m : String)
    (h : (insert_file_batches db fib fcb).1 = .rejected m) :
    (insert_file_batches db fib fcb).2 = db := by
  cases fib with
  | nil => simp [insert_file_batches] at h
  | cons f rest =>
    simp only [insert_file_batches] at h ⊢
    cases hg : get_user_total_file_count db f.user_id with
    | none => simp [hg] at h
    | some p =>
      obtain ⟨fc, tp⟩ := p
      simp only [hg] at h ⊢
      split_ifs at h ⊢ <;> simp_all

/-- Claim C3 (amended): when upload_files is rejected by the file-count
quota check, no durable write occurs (the store is returned unchanged), but
every StagingEntry enumerated by the staged-file loop has already been
deleted from the cache before the quota check ran, so the staged uploads
are not preserved for a retry. -/
theorem claim3_amended (db : Db) (c : Cache) (u : String) (ctr : Nat)
    (m : String)
    (h : (upload_files db c u ctr).outcome = .quotaRejected m) :
    (upload_files db c u ctr).db = db
    ∧ ∀ k ud, cacheGet c k = some (.staged ud) → keyHasBase u k = true →
        cacheGet (upload_files db c u ctr).cache k = none := by
  cases hsel : cacheGet c (selKey u) with
  | none => simp [upload_files, hsel] at h
  | some v =>
    cases v with
    | contentRows r => simp [upload_files, hsel] at h
    | embMatrix r => simp [upload_files, hsel] at h
    | staged ud => simp [upload_files, hsel] at h
    | str did =>
      cases hdom : get_domain_info db u did with
      | none => simp [upload_files, hsel, hdom] at h
      | some dname =>
        by_cases hkeys : (stagedKeys c u).isEmpty = true
        · simp [upload_files, hsel, hdom, hkeys] at h
        · have hkeys2 : (stagedKeys c u).isEmpty = false := by
            revert hkeys
            cases (stagedKeys c u).isEmpty <;> simp
          simp only [upload_files, hsel, hdom, hkeys2, Bool.false_eq_true,
            if_false] at h ⊢
          cases hins : insert_file_batches db
              (buildBatches u did (stagedKeys c u) c ctr).fib
              (buildBatches u did (stagedKeys c u) c ctr).fcb with
          | mk res db2 =>
            cases res with
            | failed => simp [hins] at h
            | ok msg =>
              simp only [hins] at h
              split at h <;> simp at h
            | rejected m0 =>
              simp only [hins] at h ⊢
              have h1 : (insert_file_batches db
                  (buildBatches u did (stagedKeys c u) c ctr).fib
                  (buildBatches u did (stagedKeys c u) c ctr).fcb).1 =
                    .rejected m0 := by
                rw [hins]
              have h2 := insert_file_batches_rejected_db db _ _ m0 h1
              rw [hins] at h2
              refine ⟨h2, ?_⟩
              intro k ud hget hpre
              exact buildBatches_removes u did (stagedKeys c u) c ctr k
                (mem_stagedKeys hget hpre) ⟨ud, hget⟩

/-- One staged upload payload. -/
def udA : UploadData :=
  ⟨"a.txt", "2024-01-01", ["hello"], [1], [false], [false], [5]⟩

/-- A free user already at the 10-file ceiling, with domain d1 selected. -/
def dbTenFiles : Db :=
  ⟨[⟨"u1", "free"⟩], [⟨"u1", "d1", "Docs", 1⟩],
   [⟨"u1", "f0", "d1", "n0", "2024-01-01", none⟩,
    ⟨"u1", "f1", "d1", "n1", "2024-01-01", none⟩,
    ⟨"u1", "f2", "d1", "n2", "2024-01-01", none⟩,
    ⟨"u1", "f3", "d1", "n3", "2024-01-01", none⟩,
    ⟨"u1", "f4", "d1", "n4", "2024-01-01", none⟩,
    ⟨"u1", "f5", "d1", "n5", "2024-01-01", none⟩,
    ⟨"u1", "f6", "d1", "n6", "2024-01-01", none⟩,
    ⟨"u1", "f7", "d1", "n7", "2024-01-01", none⟩,
    ⟨"u1", "f8", "d1", "n8", "2024-01-01", none⟩,
    ⟨"u1", "f9", "d1", "n9", "2024-01-01", none⟩],
   [], []⟩

/-- A cache holding the selected-domain pointer and one staged upload. -/
def cacheStaged : Cache :=
  [(selKey "u1", .str "d1"), ("user:u1:upload:a.txt", .staged udA)]

/-- Claim C3 counterexample: the commit is rejected by the file-count quota
(10 files, batch of 1, ceiling 10), yet the StagingEntry that was present
before the call has been removed from the cache — contradicting the claim
that no StagingEntry is removed on quota rejection. -/
theorem claim3_counterexample :
    (upload_files dbTenFiles cacheStaged "u1" 0).outcome =
      .quotaRejected (freeFileLimitMsg 10)
    ∧ cacheGet cacheStaged "user:u1:upload:a.txt" = some (.staged udA)
    ∧ cacheGet (upload_files dbTenFiles cacheStaged "u1" 0).cache
        "user:u1:upload:a.txt" = none := by
  decide

/-- Claim C3 witness: the amended statement at the concrete quota-rejected
commit — the store is unchanged and the staged key is gone. -/
theorem claim3_witness :
    (upload_files dbTenFiles cacheStaged "u1" 0).db = dbTenFiles
    ∧ cacheGet (upload_files dbTenFiles cacheStaged "u1" 0).cache
        "user:u1:upload:a.txt" = none := by
  have h := claim3_amended dbTenFiles cacheStaged "u1" 0
    (freeFileLimitMsg 10) (by decide)
  exact ⟨h.1, h.2 "user:u1:upload:a.txt" udA (by decide) (by decide)⟩
